import Mathlib

/-!
Verification of the LIDAR-Lite v2 driver core (`lidar.go`).

The driver talks to the sensor over a register-addressed i2c bus.  We embed
the driver shallowly:

* the bus transport (`i2c.Bus`) is an oracle `BusModel.resp` that yields, for
  the n-th bus operation performed, the pair (value returned, transport error
  if any); the wall clock is an oracle `BusModel.tick` giving the amount of
  time that passes at the n-th `time.Now` / `time.Since` query;
* the device handle state `DevState` records how many bus operations and
  clock queries have happened, the current wall-clock time, and a log of
  every register operation issued (so "zero register writes" is provable);
* Go's unbounded polling loops become fuel-indexed recursions returning
  `Option`; `none` means "ran out of fuel", which never happens for the fuel
  values used in the theorems;
* Go machine integers are `Nat`/`Int` with explicit wrapping
  (`wrap64` for `int64` products, `wrap16` for the `int16` cast, `% 256` for
  `byte`); Go's `/` on integers is truncating division, `Int.tdiv`.

Every definition is translated from `lidar.go`; names follow the source.
-/

namespace LidarV2

/-- Status register bit: acquisition in progress (`Busy`). -/
def Busy : Nat := 1

/-- Status register bit: correlation peak at or below threshold
(`SignalNotDetected`). -/
def SignalNotDetected : Nat := 8

/-- Status register bit: device self-check passed (`Healthy`). -/
def Healthy : Nat := 32

/-- Status register bit: measurement invalid (`ErrorDetected`). -/
def ErrorDetected : Nat := 64

/-- Control-register bit `customAcquisitionInterval = 1 << 5`. -/
def customAcquisitionInterval : Nat := 32

/-- Control-register bit `velocityModeEnabled = 1 << 7`. -/
def velocityModeEnabled : Nat := 128

/-- Register number of the mode/control register (`modeControlRegister`). -/
def modeControlRegister : Nat := 4

/-- Hardware default of the interval register (`defaultIntervalValue = 0xc8`). -/
def defaultIntervalValue : Nat := 200

/-- Minimal valid interval register value (`minIntervalValue = 0x02`). -/
def minIntervalValue : Nat := 2

/-- Maximal valid interval register value (`maxIntervalValue = 0xff`). -/
def maxIntervalValue : Nat := 255

/-- `DefaultAcquisitionInterval = (defaultIntervalValue >> 1) * time.Millisecond`,
in nanoseconds (time.Duration is a count of nanoseconds). -/
def DefaultAcquisitionInterval : Int := ((defaultIntervalValue >>> 1) : Nat) * 1000000

/-- Health flag bit `UnhealthyReference = 1 << 1`. -/
def UnhealthyReference : Nat := 2

/-- Health flag bit `UnhealthyTransmitPower = 1 << 2`. -/
def UnhealthyTransmitPower : Nat := 4

/-- Health flag bit `UnhealthyDC = 1 << 3`. -/
def UnhealthyDC : Nat := 8

/-- `HealthError` from the source: wraps the detailed health flags byte. -/
structure HealthError where
  healthFlags : Nat
deriving DecidableEq

/-- `HealthError.Error()`: the human-readable description, first matching
sub-flag in the fixed order reference / transmit power / DC wins. -/
def HealthError.Error (e : HealthError) : String :=
  if e.healthFlags &&& UnhealthyReference ≠ 0 then
    "LIDAR unhealthy: reference signal failure"
  else if e.healthFlags &&& UnhealthyTransmitPower ≠ 0 then
    "LIDAR unhealthy: transmit power failure"
  else if e.healthFlags &&& UnhealthyDC ≠ 0 then
    "LIDAR unhealthy: DC (preamplifier) failure"
  else
    "LIDAR unhealthy, measurement result may be inaccurate"

/-- The driver's error values.  Transport errors carry an opaque code so that
"propagated unmodified" is expressible; the other constructors stand for the
distinct error values the driver itself creates. -/
inductive LidarErr where
  /-- an error returned by the bus layer, carrying its identity -/
  | transport (code : Nat)
  /-- "Timed out waiting for non-Busy LIDAR status" -/
  | timeout
  /-- `&HealthError{healthFlags: flags}` -/
  | health (flags : Nat)
  /-- "LIDAR has detected an error during measurement" -/
  | measurement
  /-- "LIDAR has not received it's signal" (SignalNotDetected set) -/
  | signalNotReceived
  /-- "Specified measurement interval %v is not achievable" -/
  | notAchievable (interval : Int)
deriving DecidableEq

/-- One logged bus operation. -/
inductive BusOp where
  | readByte (reg : Nat)
  | readWord (reg : Nat)
  | writeByte (reg : Nat) (v : Nat)
deriving DecidableEq

/-- The environment: bus responses by operation index and clock advances by
clock-query index. -/
structure BusModel where
  resp : Nat → Nat × Option Nat
  tick : Nat → Nat

/-- Device interaction state: operation counter, clock-query counter, current
wall-clock time, and the log of operations issued so far. -/
structure DevState where
  ops : Nat
  ticks : Nat
  time : Nat
  log : List BusOp
deriving DecidableEq

/-- The all-zero initial state. -/
def initState : DevState := ⟨0, 0, 0, []⟩

/-- `bus.ReadByteFromReg(addr, reg)`: returns (value, error) and logs the read. -/
def readByteFromReg (m : BusModel) (reg : Nat) (s : DevState) :
    (Nat × Option Nat) × DevState :=
  (((m.resp s.ops).1 % 256, (m.resp s.ops).2),
   { s with ops := s.ops + 1, log := s.log ++ [BusOp.readByte reg] })

/-- `bus.ReadWordFromReg(addr, reg)`: returns (value, error) and logs the read. -/
def readWordFromReg (m : BusModel) (reg : Nat) (s : DevState) :
    (Nat × Option Nat) × DevState :=
  (((m.resp s.ops).1 % 65536, (m.resp s.ops).2),
   { s with ops := s.ops + 1, log := s.log ++ [BusOp.readWord reg] })

/-- `bus.WriteByteToReg(addr, reg, v)`: returns the error and logs the write. -/
def writeByteToReg (m : BusModel) (reg v : Nat) (s : DevState) :
    Option Nat × DevState :=
  ((m.resp s.ops).2,
   { s with ops := s.ops + 1, log := s.log ++ [BusOp.writeByte reg (v % 256)] })

/-- A `time.Now()` / `time.Since` query: the clock advances by the oracle's
tick for the current query index and the new time is returned. -/
def clockNow (m : BusModel) (s : DevState) : Nat × DevState :=
  (s.time + m.tick s.ticks,
   { s with ticks := s.ticks + 1, time := s.time + m.tick s.ticks })

/-- Two's-complement reading of a byte, Go's `int8(b)` for `b : byte`. -/
def int8OfByte (b : Nat) : Int :=
  if b < 128 then (b : Int) else (b : Int) - 256

/-- Go's `int16(x)` cast: wrap to [-2^15, 2^15). -/
def wrap16 (x : Int) : Int := (x + 32768) % 65536 - 32768

/-- Wrap of `int64` arithmetic to [-2^63, 2^63). -/
def wrap64 (x : Int) : Int :=
  (x + 9223372036854775808) % 18446744073709551616 - 9223372036854775808

/-- `GetStatus()`: read the status register 0x01. -/
def GetStatus (m : BusModel) (s : DevState) : (Nat × Option Nat) × DevState :=
  readByteFromReg m 0x01 s

/-- The post-loop wrap in `waitReadyStatus`: `if err == nil { err = timeout }`;
a bus error is wrapped as a transport error, unmodified. -/
def wrapLoopErr : Option Nat → Option LidarErr
  | none => some LidarErr.timeout
  | some code => some (LidarErr.transport code)

/-- The `for` loop of `waitReadyStatus`, fuel-indexed.  Each iteration reads
the status register; on a successful non-Busy read it returns immediately;
otherwise, once `time.Since(startedAt) >= WaitTimeout`, it breaks and returns
the last read's status and error (timeout if the last read succeeded);
otherwise it sleeps `backoff`, doubles it and retries. -/
def waitReadyStatusLoop (m : BusModel) (W startedAt : Nat) :
    Nat → Nat → DevState → Option ((Nat × Option LidarErr) × DevState)
  | _, 0, _ => none
  | backoff, fuel + 1, s =>
    let r := GetStatus m s
    if r.1.2 = none ∧ r.1.1 &&& Busy = 0 then
      some ((r.1.1, none), r.2)
    else
      let c := clockNow m r.2
      if W ≤ c.1 - startedAt then
        some ((r.1.1, wrapLoopErr r.1.2), c.2)
      else
        waitReadyStatusLoop m W startedAt (backoff * 2) fuel c.2

/-- `waitReadyStatus()`: record `startedAt := time.Now()`, start with a
backoff of one time unit (`time.Millisecond`) and poll. -/
def waitReadyStatus (m : BusModel) (W fuel : Nat) (s : DevState) :
    Option ((Nat × Option LidarErr) × DevState) :=
  let c := clockNow m s
  waitReadyStatusLoop m W c.1 1 fuel c.2

/-- `waitReadyForCommand()`: drop the status, keep the error. -/
def waitReadyForCommand (m : BusModel) (W fuel : Nat) (s : DevState) :
    Option (Option LidarErr × DevState) :=
  (waitReadyStatus m W fuel s).map (fun p => (p.1.2, p.2))

/-- `waitAcquisitionReady()`: wait for a non-Busy status, then classify it.
With the status in hand (read error nil): if Healthy is clear, read the
detailed health register 0x48 (its error ignored) and set a `HealthError`;
then, overwriting, if ErrorDetected is set, a measurement error; then,
overwriting, if SignalNotDetected is set, a signal error. -/
def waitAcquisitionReady (m : BusModel) (W fuel : Nat) (s : DevState) :
    Option (Option LidarErr × DevState) :=
  match waitReadyStatus m W fuel s with
  | none => none
  | some ((_, some e), s1) => some (some e, s1)
  | some ((status, none), s1) =>
    let p : Option LidarErr × DevState :=
      if status &&& Healthy = 0 then
        let r := readByteFromReg m 0x48 s1
        (some (LidarErr.health r.1.1), r.2)
      else (none, s1)
    let e2 := if status &&& ErrorDetected ≠ 0 then some LidarErr.measurement else p.1
    let e3 := if status &&& SignalNotDetected ≠ 0 then some LidarErr.signalNotReceived else e2
    some (e3, p.2)

/-- `Acquire(stablizePreamp)`: wait for command readiness, then write the
acquire command (0x04 with preamp/DC stabilization, else 0x03) to register 0. -/
def Acquire (m : BusModel) (W fuel : Nat) (stablizePreamp : Bool) (s : DevState) :
    Option (Option LidarErr × DevState) :=
  match waitReadyForCommand m W fuel s with
  | none => none
  | some (some e, s1) => some (some e, s1)
  | some (none, s1) =>
    let command : Nat := if stablizePreamp then 0x04 else 0x03
    let r := writeByteToReg m 0x00 command s1
    some (Option.map LidarErr.transport r.1, r.2)

/-- Is the readiness error fatal for a read, i.e. not nil and not a
`*HealthError`?  Mirrors the type assertion in `ReadDistance`/`ReadVelocity`. -/
def isFatalErr : Option LidarErr → Bool
  | none => false
  | some (LidarErr.health _) => false
  | some _ => true

/-- `ReadDistance()`: wait for acquisition readiness; on a fatal error return
(0, err) without touching the distance register; otherwise read the 16-bit
distance register 0x8f and return its value together with the (possibly nil)
health error. -/
def ReadDistance (m : BusModel) (W fuel : Nat) (s : DevState) :
    Option ((Nat × Option LidarErr) × DevState) :=
  match waitAcquisitionReady m W fuel s with
  | none => none
  | some (healthError, s1) =>
    if isFatalErr healthError then some ((0, healthError), s1)
    else
      let r := readWordFromReg m 0x8f s1
      match r.1.2 with
      | some c => some ((0, some (LidarErr.transport c)), r.2)
      | none => some ((r.1.1, healthError), r.2)

/-- `ReadVelocity()`: wait for acquisition readiness; on a fatal error return
(0, err).  Otherwise read the control register; if the custom-interval bit is
set re-read the interval register 0x45 as the scale, else use the fixed
default scale `defaultIntervalValue`; read the raw velocity register 0x09 as
a signed byte and return `int16(int(int8(raw)) * int(scale) / 20)`. -/
def ReadVelocity (m : BusModel) (W fuel : Nat) (s : DevState) :
    Option ((Int × Option LidarErr) × DevState) :=
  match waitAcquisitionReady m W fuel s with
  | none => none
  | some (healthError, s1) =>
    if isFatalErr healthError then some ((0, healthError), s1)
    else
      let rc := readByteFromReg m modeControlRegister s1
      match rc.1.2 with
      | some c => some ((0, some (LidarErr.transport c)), rc.2)
      | none =>
        let rs : (Nat × Option Nat) × DevState :=
          if rc.1.1 &&& customAcquisitionInterval ≠ 0 then
            readByteFromReg m 0x45 rc.2
          else ((defaultIntervalValue, none), rc.2)
        match rs.1.2 with
        | some c => some ((0, some (LidarErr.transport c)), rs.2)
        | none =>
          let rv := readByteFromReg m 0x09 rs.2
          match rv.1.2 with
          | some c => some ((0, some (LidarErr.transport c)), rv.2)
          | none =>
            some ((wrap16 (Int.tdiv (int8OfByte rv.1.1 * (rs.1.1 : Int)) 20), healthError),
                  rv.2)

/-- The interval translation in `setAcquisitionInterval`:
`interval.Nanoseconds() * 2 / 1000000` in `int64` arithmetic (the product
wraps, the division truncates toward zero). -/
def translatedIntervalOf (interval : Int) : Int :=
  Int.tdiv (wrap64 (interval * 2)) 1000000

/-- The decoding formula used for the exported interval constants:
`(value >> 1) * time.Millisecond`, i.e. register value to nanoseconds. -/
def decodeIntervalValue (raw : Int) : Int :=
  Int.tdiv raw 2 * 1000000

/-- `setAcquisitionInterval(interval, velocity)`: read the control register,
set/clear the velocity-mode bit; if `interval` is the default, write back the
control byte with the custom-interval bit cleared and stop.  Otherwise
translate the interval; if it is out of the valid register range fail with
the range error before any write; otherwise write the interval register 0x45
and then the control register with the custom-interval bit set. -/
def setAcquisitionInterval (m : BusModel) (interval : Int) (velocity : Bool)
    (s : DevState) : Option LidarErr × DevState :=
  let rc := readByteFromReg m modeControlRegister s
  match rc.1.2 with
  | some c => (some (LidarErr.transport c), rc.2)
  | none =>
    let control :=
      if velocity then rc.1.1 ||| velocityModeEnabled
      else rc.1.1 &&& (255 ^^^ velocityModeEnabled)
    if interval = DefaultAcquisitionInterval then
      let r := writeByteToReg m modeControlRegister
        (control &&& (255 ^^^ customAcquisitionInterval)) rc.2
      (Option.map LidarErr.transport r.1, r.2)
    else
      let translatedInterval := translatedIntervalOf interval
      if translatedInterval < (minIntervalValue : Int) ∨
          (maxIntervalValue : Int) < translatedInterval then
        (some (LidarErr.notAchievable interval), rc.2)
      else
        let r1 := writeByteToReg m 0x45 (translatedInterval % 256).toNat rc.2
        match r1.1 with
        | some c => (some (LidarErr.transport c), r1.2)
        | none =>
          let r2 := writeByteToReg m modeControlRegister
            (control ||| customAcquisitionInterval) r1.2
          (Option.map LidarErr.transport r2.1, r2.2)

/-- `setAcquisitionCount(count)`: write the count register 0x11. -/
def setAcquisitionCount (m : BusModel) (count : Nat) (s : DevState) :
    Option Nat × DevState :=
  writeByteToReg m 0x11 count s

/-- The retry loop of `GetDistance`, fuel-indexed.  Each iteration runs
`Acquire(true)` and, if that succeeds, `ReadDistance()`; a fully successful
iteration returns the distance with a nil error; otherwise, once
`time.Since(startedAt) >= WaitTimeout`, the loop breaks and the last value
and error are returned. -/
def GetDistanceLoop (m : BusModel) (W fuelInner startedAt : Nat) :
    Nat → Nat → DevState → Option ((Nat × Option LidarErr) × DevState)
  | 0, _, _ => none
  | fuel + 1, value, s =>
    match Acquire m W fuelInner true s with
    | none => none
    | some (some e, s1) =>
      let c := clockNow m s1
      if W ≤ c.1 - startedAt then some ((value, some e), c.2)
      else GetDistanceLoop m W fuelInner startedAt fuel value c.2
    | some (none, s1) =>
      match ReadDistance m W fuelInner s1 with
      | none => none
      | some ((v, none), s2) => some ((v, none), s2)
      | some ((v, some e), s2) =>
        let c := clockNow m s2
        if W ≤ c.1 - startedAt then some ((v, some e), c.2)
        else GetDistanceLoop m W fuelInner startedAt fuel v c.2

/-- `GetDistance()`: record `startedAt := time.Now()`, set the acquisition
count to 0, then run the acquire-and-read retry loop. -/
def GetDistance (m : BusModel) (W fuelInner fuel : Nat) (s : DevState) :
    Option ((Nat × Option LidarErr) × DevState) :=
  let c := clockNow m s
  let r := setAcquisitionCount m 0 c.2
  match r.1 with
  | some e => some ((0, some (LidarErr.transport e)), r.2)
  | none => GetDistanceLoop m W fuelInner c.1 fuel 0 r.2

/-- A test environment in which every bus operation yields the same response
and every clock query advances time by one unit. -/
def constModel (v : Nat) (e : Option Nat) : BusModel :=
  { resp := fun _ => (v, e), tick := fun _ => 1 }

/-- A test environment serving a fixed list of responses (then zeros), with
every clock query advancing time by one unit. -/
def seqModel (l : List (Nat × Option Nat)) : BusModel :=
  { resp := fun n => l.getD n (0, none), tick := fun _ => 1 }

/-! ## Arithmetic and bit-manipulation helper lemmas -/

theorem wrap16_eq_self (x : Int) (h1 : -32768 ≤ x) (h2 : x < 32768) : wrap16 x = x := by
  unfold wrap16
  omega

theorem wrap64_eq_self (x : Int) (h1 : -9223372036854775808 ≤ x)
    (h2 : x < 9223372036854775808) : wrap64 x = x := by
  unfold wrap64
  omega

theorem tdiv_twenty_bound {a : Int} (h1 : -32640 ≤ a) (h2 : a ≤ 32640) :
    -32768 ≤ a.tdiv 20 ∧ a.tdiv 20 < 32768 := by
  rcases le_or_lt 0 a with h | h
  · rw [Int.tdiv_eq_ediv h (by norm_num)]
    omega
  · have heq := Int.neg_tdiv a 20
    rw [Int.tdiv_eq_ediv (by omega : (0 : Int) ≤ -a) (by norm_num)] at heq
    omega

theorem int8OfByte_bounds (b : Nat) (hb : b < 256) :
    -128 ≤ int8OfByte b ∧ int8OfByte b ≤ 127 := by
  unfold int8OfByte
  split <;> omega

theorem velocity_value_no_overflow (r sc : Nat) (hr : r < 256) (hsc : sc < 256) :
    wrap16 (Int.tdiv (int8OfByte r * (sc : Int)) 20) =
      Int.tdiv (int8OfByte r * (sc : Int)) 20 := by
  obtain ⟨h1, h2⟩ := int8OfByte_bounds r hr
  have hs0 : (0 : Int) ≤ (sc : Int) := Int.ofNat_nonneg sc
  have hs1 : (sc : Int) ≤ 255 := by exact_mod_cast Nat.le_of_lt_succ hsc
  have hp1 : int8OfByte r * (sc : Int) ≤ 32640 := by nlinarith
  have hp2 : -32640 ≤ int8OfByte r * (sc : Int) := by nlinarith
  obtain ⟨g1, g2⟩ := tdiv_twenty_bound hp2 hp1
  exact wrap16_eq_self _ g1 g2

theorem or_and_self_128 (x : Nat) : (x ||| 128) &&& 128 = 128 := by
  apply Nat.eq_of_testBit_eq
  intro i
  rw [Nat.testBit_and, Nat.testBit_or]
  cases h : Nat.testBit 128 i <;> simp [h]

theorem and223_clears_custom (x : Nat) : (x &&& 223) &&& 32 = 0 := by
  rw [Nat.and_assoc, (by decide : (223 : Nat) &&& 32 = 0), Nat.and_zero]

theorem velocity_bit_of_set (x : Nat) : ((x ||| 128) &&& 223) &&& 128 = 128 := by
  rw [Nat.and_assoc, (by decide : (223 : Nat) &&& 128 = 128)]
  exact or_and_self_128 x

theorem velocity_bit_of_clear (x : Nat) : ((x &&& 127) &&& 223) &&& 128 = 0 := by
  rw [Nat.and_assoc, Nat.and_assoc,
    (by decide : (127 : Nat) &&& (223 &&& 128) = 0), Nat.and_zero]

/-! ## Claim theorems -/

/-- Claim C10: for every health-flags byte, `HealthError.Error` resolves
simultaneous sub-flags first-match-wins in the fixed order reference signal,
transmit power, DC/preamplifier; if the reference bit is set the message is
the reference-failure message regardless of the other bits, and if none of
the three sub-flag bits is set (including the flags byte 0 a failed detail
read leaves behind) the generic unhealthy message is returned. -/
theorem healthError_message_precedence (flags : Nat) :
    (flags &&& UnhealthyReference ≠ 0 →
      HealthError.Error ⟨flags⟩ = "LIDAR unhealthy: reference signal failure") ∧
    (flags &&& UnhealthyReference = 0 → flags &&& UnhealthyTransmitPower ≠ 0 →
      HealthError.Error ⟨flags⟩ = "LIDAR unhealthy: transmit power failure") ∧
    (flags &&& UnhealthyReference = 0 → flags &&& UnhealthyTransmitPower = 0 →
      flags &&& UnhealthyDC ≠ 0 →
      HealthError.Error ⟨flags⟩ = "LIDAR unhealthy: DC (preamplifier) failure") ∧
    (flags &&& UnhealthyReference = 0 → flags &&& UnhealthyTransmitPower = 0 →
      flags &&& UnhealthyDC = 0 →
      HealthError.Error ⟨flags⟩ =
        "LIDAR unhealthy, measurement result may be inaccurate") := by
  refine ⟨?_, ?_, ?_, ?_⟩ <;> intros <;> simp_all [HealthError.Error]

/-- Witness for C10: all three sub-flags set (flags = 14) resolves to the
reference-failure message; flags = 0 resolves to the generic message. -/
theorem healthError_message_precedence_witness :
    HealthError.Error ⟨14⟩ = "LIDAR unhealthy: reference signal failure" ∧
    HealthError.Error ⟨0⟩ = "LIDAR unhealthy, measurement result may be inaccurate" :=
  ⟨(healthError_message_precedence 14).1 (by decide),
   (healthError_message_precedence 0).2.2.2 (by decide) (by decide) (by decide)⟩

/-- Claim C6 counterexample: the requested duration 1999999 ns encodes to the
register value 3 (which is within the valid range), and the documented
decoding formula maps 3 back to 1000000 ns.  The round-trip error is
999999 ns, which exceeds one register-unit: one unit of the interval register
stands for half a millisecond (500000 ns), as fixed by the encoding formula
`raw = d_ns * 2 / 1000000`. -/
theorem intervalRoundTrip_counterexample :
    (minIntervalValue : Int) ≤ translatedIntervalOf 1999999 ∧
    translatedIntervalOf 1999999 ≤ (maxIntervalValue : Int) ∧
    translatedIntervalOf 1999999 = 3 ∧
    decodeIntervalValue (translatedIntervalOf 1999999) = 1000000 ∧
    (1999999 : Int) - decodeIntervalValue (translatedIntervalOf 1999999) = 999999 ∧
    (500000 : Int) < 1999999 - decodeIntervalValue (translatedIntervalOf 1999999) := by
  refine ⟨by decide, by decide, by decide, by decide, by decide, by decide⟩

/-- Claim C6 as amended: for every duration d whose translated value
`d*2/1000000` lies within `[minIntervalValue, maxIntervalValue]`, encoding d
with the source's translation and then decoding with the documented formula
`(raw >> 1) * time.Millisecond` recovers d within TWO register-units (i.e.
the defect is nonnegative and strictly below one millisecond); one
register-unit (half a millisecond) is not enough, as the counterexample
shows. -/
theorem intervalRoundTrip_amended (d : Int)
    (h1 : (minIntervalValue : Int) ≤ Int.tdiv (d * 2) 1000000)
    (h2 : Int.tdiv (d * 2) 1000000 ≤ (maxIntervalValue : Int)) :
    decodeIntervalValue (translatedIntervalOf d) ≤ d ∧
    d - decodeIntervalValue (translatedIntervalOf d) < 1000000 := by
  have hmin : (minIntervalValue : Int) = 2 := by decide
  have hmax : (maxIntervalValue : Int) = 255 := by decide
  rw [hmin] at h1
  rw [hmax] at h2
  have hd2 : 0 ≤ d * 2 := by
    by_contra hneg
    push_neg at hneg
    have h0 : 0 ≤ (-(d * 2)).tdiv 1000000 :=
      Int.tdiv_nonneg (by omega) (by norm_num)
    rw [Int.neg_tdiv] at h0
    omega
  rw [Int.tdiv_eq_ediv hd2 (by norm_num)] at h1 h2
  have hlt : d * 2 < 9223372036854775808 := by omega
  have htr : translatedIntervalOf d = d * 2 / 1000000 := by
    unfold translatedIntervalOf
    rw [wrap64_eq_self (d * 2) (by omega) hlt]
    exact Int.tdiv_eq_ediv hd2 (by norm_num)
  rw [htr]
  unfold decodeIntervalValue
  rw [Int.tdiv_eq_ediv (by omega) (by norm_num)]
  omega

/-- Witness for C6's amended theorem: the default interval 100000000 ns
(register value 200) round-trips exactly. -/
theorem intervalRoundTrip_amended_witness :
    (minIntervalValue : Int) ≤ Int.tdiv ((100000000 : Int) * 2) 1000000 ∧
    decodeIntervalValue (translatedIntervalOf 100000000) ≤ 100000000 ∧
    (100000000 : Int) - decodeIntervalValue (translatedIntervalOf 100000000) < 1000000 ∧
    decodeIntervalValue (translatedIntervalOf 100000000) = 100000000 :=
  ⟨by decide,
   (intervalRoundTrip_amended 100000000 (by decide) (by decide)).1,
   (intervalRoundTrip_amended 100000000 (by decide) (by decide)).2,
   by decide⟩

/-- Claim C2: for every requested interval that differs from the documented
default and whose translated value falls outside
`[minIntervalValue, maxIntervalValue]`, `setAcquisitionInterval` issues zero
register writes (in every bus environment its log gains only the initial
control-register read), and — whenever that initial read succeeds — it
returns the range error. -/
theorem setAcquisitionInterval_range_error (m : BusModel) (interval : Int)
    (velocity : Bool) (s : DevState)
    (hne : interval ≠ DefaultAcquisitionInterval)
    (hrange : translatedIntervalOf interval < (minIntervalValue : Int) ∨
      (maxIntervalValue : Int) < translatedIntervalOf interval) :
    (setAcquisitionInterval m interval velocity s).2.log =
      s.log ++ [BusOp.readByte modeControlRegister] ∧
    ((m.resp s.ops).2 = none →
      (setAcquisitionInterval m interval velocity s).1 =
        some (LidarErr.notAchievable interval)) := by
  cases h : (m.resp s.ops).2 with
  | none =>
    simp [setAcquisitionInterval, readByteFromReg, h, if_neg hne, if_pos hrange]
  | some c =>
    simp [setAcquisitionInterval, readByteFromReg, h]

/-- Witness for C2: a requested interval of 0 ns (translated value 0, below
the minimum of 2) yields the range error and a log holding only the
control-register read. -/
theorem setAcquisitionInterval_range_error_witness :
    (setAcquisitionInterval (constModel 0 none) 0 false initState).2.log =
      [BusOp.readByte modeControlRegister] ∧
    (setAcquisitionInterval (constModel 0 none) 0 false initState).1 =
      some (LidarErr.notAchievable 0) := by
  have h := setAcquisitionInterval_range_error (constModel 0 none) 0 false initState
    (by decide) (by decide)
  exact ⟨h.1.trans (by decide), h.2 (by decide)⟩

/-- Claim C7: a call of `setAcquisitionInterval` with the documented default
interval writes the control register only: in every environment all newly
logged writes target `modeControlRegister`, and when the initial control read
succeeds the log gains exactly that read followed by one control-register
write whose value has the custom-interval bit cleared and the velocity-mode
bit set or cleared per the `velocity` argument; the interval register and
every other register are untouched. -/
theorem setAcquisitionInterval_default_writes (m : BusModel) (velocity : Bool)
    (s : DevState) :
    (∀ op ∈ (setAcquisitionInterval m DefaultAcquisitionInterval velocity s).2.log.drop
        s.log.length, ∀ r v, op = BusOp.writeByte r v → r = modeControlRegister) ∧
    (∀ c, m.resp s.ops = (c, none) →
      (setAcquisitionInterval m DefaultAcquisitionInterval velocity s).2.log =
        s.log ++ [BusOp.readByte modeControlRegister,
          BusOp.writeByte modeControlRegister
            ((if velocity then c % 256 ||| velocityModeEnabled
              else c % 256 &&& (255 ^^^ velocityModeEnabled)) &&&
              (255 ^^^ customAcquisitionInterval))] ∧
      ((if velocity then c % 256 ||| velocityModeEnabled
        else c % 256 &&& (255 ^^^ velocityModeEnabled)) &&&
          (255 ^^^ customAcquisitionInterval)) &&& customAcquisitionInterval = 0 ∧
      ((if velocity then c % 256 ||| velocityModeEnabled
        else c % 256 &&& (255 ^^^ velocityModeEnabled)) &&&
          (255 ^^^ customAcquisitionInterval)) &&& velocityModeEnabled =
        (if velocity then velocityModeEnabled else 0)) := by
  have hval : ∀ x : Nat,
      (x &&& (255 ^^^ velocityModeEnabled)) &&& (255 ^^^ customAcquisitionInterval) =
        (x &&& 127) &&& 223 := by
    intro x
    simp only [velocityModeEnabled, customAcquisitionInterval]
    rw [(by decide : (255 : Nat) ^^^ 128 = 127), (by decide : (255 : Nat) ^^^ 32 = 223)]
  constructor
  · cases h : (m.resp s.ops).2 with
    | none =>
      cases velocity <;>
        simp [setAcquisitionInterval, readByteFromReg, writeByteToReg, h,
          modeControlRegister]
    | some c =>
      simp [setAcquisitionInterval, readByteFromReg, h]
  · intro c hc
    have hc2 : (m.resp s.ops).2 = none := by rw [hc]
    have hc1 : (m.resp s.ops).1 = c := by rw [hc]
    have hx : (255 : Nat) ^^^ velocityModeEnabled = 127 := by decide
    have hy : (255 : Nat) ^^^ customAcquisitionInterval = 223 := by decide
    refine ⟨?_, ?_, ?_⟩
    · cases velocity <;>
        simp [setAcquisitionInterval, readByteFromReg, writeByteToReg, hc2, hc1,
          hx, hy, Nat.mod_eq_of_lt] <;>
        exact lt_of_le_of_lt Nat.and_le_right (by norm_num)
    · cases velocity with
      | false =>
        simp only [if_neg Bool.false_ne_true]
        rw [hval]
        exact and223_clears_custom _
      | true =>
        simp only [if_pos rfl]
        norm_num [velocityModeEnabled, customAcquisitionInterval]
        exact and223_clears_custom _
    · cases velocity with
      | false =>
        simp only [if_neg Bool.false_ne_true]
        rw [hval]
        norm_num [velocityModeEnabled]
        exact velocity_bit_of_clear _
      | true =>
        simp only [if_pos rfl]
        norm_num [velocityModeEnabled, customAcquisitionInterval]
        exact velocity_bit_of_set _

/-- Witness for C7: with control register byte 63 and velocity enabled, the
default-interval call writes exactly one byte, value 159
(= (63 | 128) & 223), to the control register. -/
theorem setAcquisitionInterval_default_writes_witness :
    (setAcquisitionInterval (constModel 63 none) DefaultAcquisitionInterval true
        initState).2.log =
      [BusOp.readByte modeControlRegister, BusOp.writeByte modeControlRegister 159] ∧
    (159 : Nat) &&& customAcquisitionInterval = 0 ∧
    (159 : Nat) &&& velocityModeEnabled = velocityModeEnabled := by
  have h := (setAcquisitionInterval_default_writes (constModel 63 none) true
    initState).2 63 rfl
  exact ⟨h.1.trans (by decide), by decide, by decide⟩

/-- Claim C3: when the first status poll succeeds with Busy clear,
`waitAcquisitionReady` classifies the status by evaluating Healthy, then
ErrorDetected, then SignalNotDetected, each later detection overwriting the
earlier one.  In particular Healthy-clear together with ErrorDetected-set
yields the fatal measurement error rather than the soft health error, and a
set SignalNotDetected bit overrides the soft health error. -/
theorem waitAcquisitionReady_precedence (m : BusModel) (W fuel : Nat)
    (s : DevState) (status : Nat)
    (hresp : m.resp s.ops = (status, none)) (hlt : status < 256)
    (hbusy : status &&& Busy = 0) :
    (waitAcquisitionReady m W (fuel + 1) s).map (fun p => p.1) =
      some (if status &&& SignalNotDetected ≠ 0 then some LidarErr.signalNotReceived
        else if status &&& ErrorDetected ≠ 0 then some LidarErr.measurement
        else if status &&& Healthy = 0 then
          some (LidarErr.health ((m.resp (s.ops + 1)).1 % 256))
        else none) := by
  have h2 : (m.resp s.ops).2 = none := by rw [hresp]
  have h1 : (m.resp s.ops).1 = status := by rw [hresp]
  simp [waitAcquisitionReady, waitReadyStatus, waitReadyStatusLoop, GetStatus,
    readByteFromReg, clockNow, h2, h1, Nat.mod_eq_of_lt hlt, hbusy,
    apply_ite (f := Prod.fst (β := DevState))]

/-- Witness for C3: a status byte with Busy clear, Healthy clear and
ErrorDetected set (0b01010000 = 80) classifies as the fatal measurement
error, not as a health error. -/
theorem waitAcquisitionReady_precedence_witness :
    (waitAcquisitionReady (constModel 80 none) 5 2 initState).map (fun p => p.1) =
      some (some LidarErr.measurement) := by
  have h := waitAcquisitionReady_precedence (constModel 80 none) 5 1 initState 80
    rfl (by decide) (by decide)
  exact h.trans (by decide)

/-- Claim C5: an iteration of the `waitReadyStatus` polling loop (1) returns
immediately with the observed status whenever the status read succeeds and
Busy is clear; at the timeout boundary it returns (2) the transport error
unmodified when the last status read failed and (3) the dedicated timeout
error when the last status read succeeded (but stayed Busy); and (4) a
transport error observed before the boundary is retried like any other
not-ready condition, with doubled backoff. -/
theorem waitReadyStatusLoop_cases (m : BusModel) (W startedAt backoff fuel : Nat)
    (s : DevState) :
    (∀ status, m.resp s.ops = (status, none) → status < 256 → status &&& Busy = 0 →
      waitReadyStatusLoop m W startedAt backoff (fuel + 1) s =
        some ((status, none),
          { s with ops := s.ops + 1, log := s.log ++ [BusOp.readByte 0x01] })) ∧
    (∀ v code, m.resp s.ops = (v, some code) →
      W ≤ s.time + m.tick s.ticks - startedAt →
      waitReadyStatusLoop m W startedAt backoff (fuel + 1) s =
        some ((v % 256, some (LidarErr.transport code)),
          { s with
            ops := s.ops + 1
            ticks := s.ticks + 1
            time := s.time + m.tick s.ticks
            log := s.log ++ [BusOp.readByte 0x01] })) ∧
    (∀ status, m.resp s.ops = (status, none) → status < 256 →
      status &&& Busy ≠ 0 → W ≤ s.time + m.tick s.ticks - startedAt →
      waitReadyStatusLoop m W startedAt backoff (fuel + 1) s =
        some ((status, some LidarErr.timeout),
          { s with
            ops := s.ops + 1
            ticks := s.ticks + 1
            time := s.time + m.tick s.ticks
            log := s.log ++ [BusOp.readByte 0x01] })) ∧
    (∀ v code, m.resp s.ops = (v, some code) →
      s.time + m.tick s.ticks - startedAt < W →
      waitReadyStatusLoop m W startedAt backoff (fuel + 1) s =
        waitReadyStatusLoop m W startedAt (backoff * 2) fuel
          { s with
            ops := s.ops + 1
            ticks := s.ticks + 1
            time := s.time + m.tick s.ticks
            log := s.log ++ [BusOp.readByte 0x01] }) := by
  refine ⟨?_, ?_, ?_, ?_⟩
  · intro status hresp hlt hbusy
    have h2 : (m.resp s.ops).2 = none := by rw [hresp]
    have h1 : (m.resp s.ops).1 = status := by rw [hresp]
    simp [waitReadyStatusLoop, GetStatus, readByteFromReg, h2, h1,
      Nat.mod_eq_of_lt hlt, hbusy]
  · intro v code hresp hW
    have h2 : (m.resp s.ops).2 = some code := by rw [hresp]
    have h1 : (m.resp s.ops).1 = v := by rw [hresp]
    simp [waitReadyStatusLoop, GetStatus, readByteFromReg, clockNow, h2, h1,
      wrapLoopErr, if_pos hW]
  · intro status hresp hlt hbusy hW
    have h2 : (m.resp s.ops).2 = none := by rw [hresp]
    have h1 : (m.resp s.ops).1 = status := by rw [hresp]
    simp [waitReadyStatusLoop, GetStatus, readByteFromReg, clockNow, h2, h1,
      Nat.mod_eq_of_lt hlt, hbusy, wrapLoopErr, if_pos hW]
  · intro v code hresp hW
    have h2 : (m.resp s.ops).2 = some code := by rw [hresp]
    have h1 : (m.resp s.ops).1 = v := by rw [hresp]
    simp [waitReadyStatusLoop, GetStatus, readByteFromReg, clockNow, h2, h1,
      if_neg (by omega : ¬ W ≤ s.time + m.tick s.ticks - startedAt)]

/-- Witness for C5, instantiating each of the four cases on concrete
environments: a ready status returns at once; a failing read at the boundary
returns transport error 7 unmodified; a Busy status at the boundary returns
the timeout error; a failing read before the boundary retries and ends in
the transport error. -/
theorem waitReadyStatusLoop_cases_witness :
    waitReadyStatusLoop (constModel 32 none) 5 0 1 3 initState =
      some ((32, none), ⟨1, 0, 0, [BusOp.readByte 0x01]⟩) ∧
    waitReadyStatusLoop (constModel 0 (some 7)) 0 0 1 3 initState =
      some ((0, some (LidarErr.transport 7)), ⟨1, 1, 1, [BusOp.readByte 0x01]⟩) ∧
    waitReadyStatusLoop (constModel 33 none) 0 0 1 3 initState =
      some ((33, some LidarErr.timeout), ⟨1, 1, 1, [BusOp.readByte 0x01]⟩) ∧
    waitReadyStatusLoop (constModel 0 (some 7)) 2 0 1 2 initState =
      waitReadyStatusLoop (constModel 0 (some 7)) 2 0 2 1
        ⟨1, 1, 1, [BusOp.readByte 0x01]⟩ ∧
    waitReadyStatusLoop (constModel 0 (some 7)) 2 0 1 2 initState =
      some ((0, some (LidarErr.transport 7)), ⟨2, 2, 2, [BusOp.readByte 0x01,
        BusOp.readByte 0x01]⟩) := by
  refine ⟨?_, ?_, ?_, ?_, by decide⟩
  · exact ((waitReadyStatusLoop_cases (constModel 32 none) 5 0 1 2 initState).1 32
      rfl (by decide) (by decide)).trans (by decide)
  · exact ((waitReadyStatusLoop_cases (constModel 0 (some 7)) 0 0 1 2 initState).2.1 0
      7 rfl (by decide)).trans (by decide)
  · exact ((waitReadyStatusLoop_cases (constModel 33 none) 0 0 1 2
      initState).2.2.1 33 rfl (by decide) (by decide) (by decide)).trans (by decide)
  · exact ((waitReadyStatusLoop_cases (constModel 0 (some 7)) 2 0 1 1
      initState).2.2.2 0 7 rfl (by decide)).trans (by decide)

/-- The polling loop only ever issues reads of the status register 0x01. -/
theorem waitReadyStatusLoop_log (m : BusModel) (W startedAt : Nat) :
    ∀ fuel backoff s r s',
      waitReadyStatusLoop m W startedAt backoff fuel s = some (r, s') →
      ∃ t, s'.log = s.log ++ t ∧ ∀ op ∈ t, op = BusOp.readByte 0x01 := by
  intro fuel
  induction fuel with
  | zero =>
    intro backoff s r s' h
    simp [waitReadyStatusLoop] at h
  | succ n ih =>
    intro backoff s r s' h
    simp only [waitReadyStatusLoop, GetStatus, readByteFromReg, clockNow] at h
    split at h
    · obtain ⟨h1, h2⟩ := Prod.ext_iff.1 (Option.some.inj h)
      subst h2
      exact ⟨[BusOp.readByte 0x01], rfl, by simp⟩
    · split at h
      · obtain ⟨h1, h2⟩ := Prod.ext_iff.1 (Option.some.inj h)
        subst h2
        exact ⟨[BusOp.readByte 0x01], rfl, by simp⟩
      · obtain ⟨t, ht, hall⟩ := ih _ _ _ _ h
        refine ⟨BusOp.readByte 0x01 :: t, ?_, ?_⟩
        · simpa using ht
        · intro op hop
          rcases List.mem_cons.1 hop with hop | hop
          · exact hop
          · exact hall op hop

/-- `waitReadyStatus` only ever issues reads of the status register 0x01. -/
theorem waitReadyStatus_log (m : BusModel) (W fuel : Nat) (s : DevState)
    (r : Nat × Option LidarErr) (s' : DevState)
    (h : waitReadyStatus m W fuel s = some (r, s')) :
    ∃ t, s'.log = s.log ++ t ∧ ∀ op ∈ t, op = BusOp.readByte 0x01 := by
  simp only [waitReadyStatus, clockNow] at h
  obtain ⟨t, ht, hall⟩ := waitReadyStatusLoop_log m W _ fuel 1 _ r s' h
  exact ⟨t, ht, hall⟩

/-- `waitAcquisitionReady` only ever issues reads of the status register
0x01 and (possibly) of the health-detail register 0x48. -/
theorem waitAcquisitionReady_log (m : BusModel) (W fuel : Nat) (s : DevState)
    (he : Option LidarErr) (s1 : DevState)
    (h : waitAcquisitionReady m W fuel s = some (he, s1)) :
    ∃ t, s1.log = s.log ++ t ∧
      ∀ op ∈ t, op = BusOp.readByte 0x01 ∨ op = BusOp.readByte 0x48 := by
  unfold waitAcquisitionReady at h
  cases hw : waitReadyStatus m W fuel s with
  | none => rw [hw] at h; exact absurd h (by simp)
  | some p =>
    obtain ⟨⟨status, e⟩, s2⟩ := p
    obtain ⟨t0, ht0, hall0⟩ := waitReadyStatus_log m W fuel s (status, e) s2 hw
    rw [hw] at h
    cases e with
    | some err =>
      obtain ⟨h1, h2⟩ := Prod.ext_iff.1 (Option.some.inj h)
      subst h2
      exact ⟨t0, ht0, fun op hop => Or.inl (hall0 op hop)⟩
    | none =>
      simp only [readByteFromReg] at h
      by_cases hh : status &&& Healthy = 0
      · simp only [if_pos hh] at h
        obtain ⟨h1, h2⟩ := Prod.ext_iff.1 (Option.some.inj h)
        subst h2
        refine ⟨t0 ++ [BusOp.readByte 0x48], by simp [ht0], ?_⟩
        intro op hop
        rcases List.mem_append.1 hop with hop | hop
        · exact Or.inl (hall0 op hop)
        · simp at hop
          subst hop
          exact Or.inr rfl
      · simp only [if_neg hh] at h
        obtain ⟨h1, h2⟩ := Prod.ext_iff.1 (Option.some.inj h)
        subst h2
        exact ⟨t0, ht0, fun op hop => Or.inl (hall0 op hop)⟩

/-- Claim C1: whenever the readiness wait of `ReadVelocity` yields no fatal
error and all register reads succeed, the returned velocity is the raw
velocity byte interpreted as a signed 8-bit integer, multiplied by the scale
byte, divided by 20 with truncating integer division — for a custom scale
read from the interval register as well as for the fixed default scale 0xc8
(in particular raw 0xFF with scale 200 yields -10, and raw 0x7F with
scale 20 yields 127). -/
theorem ReadVelocity_decoding (m : BusModel) (W fuel : Nat) (s : DevState)
    (he : Option LidarErr) (s1 : DevState) (c : Nat)
    (hwait : waitAcquisitionReady m W fuel s = some (he, s1))
    (hsoft : isFatalErr he = false)
    (hc : m.resp s1.ops = (c, none)) (hclt : c < 256) :
    (c &&& customAcquisitionInterval ≠ 0 →
      ∀ sc r, m.resp (s1.ops + 1) = (sc, none) → sc < 256 →
        m.resp (s1.ops + 2) = (r, none) → r < 256 →
        (ReadVelocity m W fuel s).map (fun p => p.1) =
          some (Int.tdiv (int8OfByte r * (sc : Int)) 20, he)) ∧
    (c &&& customAcquisitionInterval = 0 →
      ∀ r, m.resp (s1.ops + 1) = (r, none) → r < 256 →
        (ReadVelocity m W fuel s).map (fun p => p.1) =
          some (Int.tdiv (int8OfByte r * (defaultIntervalValue : Int)) 20, he)) := by
  have hc2 : (m.resp s1.ops).2 = none := by rw [hc]
  have hc1 : (m.resp s1.ops).1 = c := by rw [hc]
  constructor
  · intro hbit sc r hsc hsclt hr hrlt
    have hsc2 : (m.resp (s1.ops + 1)).2 = none := by rw [hsc]
    have hsc1 : (m.resp (s1.ops + 1)).1 = sc := by rw [hsc]
    have hr2 : (m.resp (s1.ops + 2)).2 = none := by rw [hr]
    have hr1 : (m.resp (s1.ops + 2)).1 = r := by rw [hr]
    simp [ReadVelocity, hwait, hsoft, readByteFromReg, hc2, hc1, hsc2, hsc1,
      hr2, hr1, Nat.mod_eq_of_lt hclt, Nat.mod_eq_of_lt hsclt,
      Nat.mod_eq_of_lt hrlt, hbit,
      velocity_value_no_overflow r sc hrlt hsclt]
  · intro hbit r hr hrlt
    have hr2 : (m.resp (s1.ops + 1)).2 = none := by rw [hr]
    have hr1 : (m.resp (s1.ops + 1)).1 = r := by rw [hr]
    simp [ReadVelocity, hwait, hsoft, readByteFromReg, hc2, hc1, hr2, hr1,
      Nat.mod_eq_of_lt hclt, Nat.mod_eq_of_lt hrlt, hbit,
      velocity_value_no_overflow r defaultIntervalValue hrlt (by decide)]

/-- Witness for C1: with a healthy status, a control byte without the custom
bit and raw velocity byte 0xFF, the result is (-1 * 200) / 20 = -10; with
the custom bit set, scale byte 20 and raw byte 0x7F the result is
(127 * 20) / 20 = 127. -/
theorem ReadVelocity_decoding_witness :
    (ReadVelocity (seqModel [(32, none), (0, none), (255, none)]) 5 2
        initState).map (fun p => p.1) = some (-10, none) ∧
    (ReadVelocity (seqModel [(32, none), (32, none), (20, none), (127, none)]) 5 2
        initState).map (fun p => p.1) = some (127, none) := by
  constructor
  · have h := (ReadVelocity_decoding (seqModel [(32, none), (0, none), (255, none)])
      5 2 initState none ⟨1, 1, 1, [BusOp.readByte 0x01]⟩ 0
      (by decide) (by decide) rfl (by decide)).2 (by decide) 255 rfl (by decide)
    exact h.trans (by decide)
  · have h := (ReadVelocity_decoding
      (seqModel [(32, none), (32, none), (20, none), (127, none)])
      5 2 initState none ⟨1, 1, 1, [BusOp.readByte 0x01]⟩ 32
      (by decide) (by decide) rfl (by decide)).1 (by decide) 20 127 rfl (by decide)
      rfl (by decide)
    exact h.trans (by decide)

/-- Claim C8: in a successful `ReadVelocity` execution the scale factor is
read from the interval register 0x45 exactly when the custom-interval bit is
set in the control byte just read: the readiness wait itself reads only
registers 0x01 and 0x48, and after it the operations are control read,
interval read (iff the bit is set) and raw velocity read; when the bit is
clear the fixed default scale byte 0xc8 = 200 enters the returned value and
the interval register is never read. -/
theorem ReadVelocity_scale_source (m : BusModel) (W fuel : Nat) (s : DevState)
    (he : Option LidarErr) (s1 : DevState) (c : Nat)
    (hwait : waitAcquisitionReady m W fuel s = some (he, s1))
    (hsoft : isFatalErr he = false)
    (hc : m.resp s1.ops = (c, none)) (hclt : c < 256) :
    (∀ op ∈ s1.log.drop s.log.length,
      op = BusOp.readByte 0x01 ∨ op = BusOp.readByte 0x48) ∧
    (c &&& customAcquisitionInterval ≠ 0 →
      ∀ sc r, m.resp (s1.ops + 1) = (sc, none) → m.resp (s1.ops + 2) = (r, none) →
        (ReadVelocity m W fuel s).map (fun p => (p.1.1, p.2.log)) =
          some (wrap16 (Int.tdiv (int8OfByte (r % 256) * ((sc % 256 : Nat) : Int)) 20),
            s1.log ++ [BusOp.readByte modeControlRegister, BusOp.readByte 0x45,
              BusOp.readByte 0x09])) ∧
    (c &&& customAcquisitionInterval = 0 →
      ∀ r, m.resp (s1.ops + 1) = (r, none) →
        (ReadVelocity m W fuel s).map (fun p => (p.1.1, p.2.log)) =
          some (wrap16 (Int.tdiv (int8OfByte (r % 256) *
              (defaultIntervalValue : Int)) 20),
            s1.log ++ [BusOp.readByte modeControlRegister, BusOp.readByte 0x09])) := by
  have hc2 : (m.resp s1.ops).2 = none := by rw [hc]
  have hc1 : (m.resp s1.ops).1 = c := by rw [hc]
  refine ⟨?_, ?_, ?_⟩
  · obtain ⟨t, ht, hall⟩ := waitAcquisitionReady_log m W fuel s he s1 hwait
    intro op hop
    rw [ht, List.drop_left] at hop
    exact hall op hop
  · intro hbit sc r hsc hr
    have hsc2 : (m.resp (s1.ops + 1)).2 = none := by rw [hsc]
    have hsc1 : (m.resp (s1.ops + 1)).1 = sc := by rw [hsc]
    have hr2 : (m.resp (s1.ops + 2)).2 = none := by rw [hr]
    have hr1 : (m.resp (s1.ops + 2)).1 = r := by rw [hr]
    simp [ReadVelocity, hwait, hsoft, readByteFromReg, hc2, hc1, hsc2, hsc1,
      hr2, hr1, Nat.mod_eq_of_lt hclt, hbit]
  · intro hbit r hr
    have hr2 : (m.resp (s1.ops + 1)).2 = none := by rw [hr]
    have hr1 : (m.resp (s1.ops + 1)).1 = r := by rw [hr]
    simp [ReadVelocity, hwait, hsoft, readByteFromReg, hc2, hc1, hr2, hr1,
      Nat.mod_eq_of_lt hclt, hbit]

/-- Witness for C8: with the custom bit clear the execution reads registers
0x01 (status), 0x04 (control) and 0x09 (raw velocity) only; with the custom
bit set it additionally reads 0x45 between the control and velocity reads. -/
theorem ReadVelocity_scale_source_witness :
    (ReadVelocity (seqModel [(32, none), (0, none), (255, none)]) 5 2
        initState).map (fun p => (p.1.1, p.2.log)) =
      some (-10, [BusOp.readByte 0x01, BusOp.readByte modeControlRegister,
        BusOp.readByte 0x09]) ∧
    (ReadVelocity (seqModel [(32, none), (32, none), (20, none), (127, none)]) 5 2
        initState).map (fun p => (p.1.1, p.2.log)) =
      some (127, [BusOp.readByte 0x01, BusOp.readByte modeControlRegister,
        BusOp.readByte 0x45, BusOp.readByte 0x09]) := by
  constructor
  · have h := (ReadVelocity_scale_source
      (seqModel [(32, none), (0, none), (255, none)]) 5 2 initState none
      ⟨1, 1, 1, [BusOp.readByte 0x01]⟩ 0 (by decide) (by decide) rfl
      (by decide)).2.2 (by decide) 255 rfl
    exact h.trans (by decide)
  · have h := (ReadVelocity_scale_source
      (seqModel [(32, none), (32, none), (20, none), (127, none)]) 5 2 initState
      none ⟨1, 1, 1, [BusOp.readByte 0x01]⟩ 32 (by decide) (by decide) rfl
      (by decide)).2.1 (by decide) 20 127 rfl rfl
    exact h.trans (by decide)

/-- Claim C4: after its readiness wait, `ReadDistance` (a) on a
degraded-health classification still reads the 16-bit distance register and
returns both the read value and the health error, and (b) on any other error
of the wait (measurement error, signal error, timeout or transport error)
returns the zero value and that error with the device state untouched — in
particular without reading the distance register. -/
theorem ReadDistance_soft_vs_fatal (m : BusModel) (W fuel : Nat) (s : DevState)
    (he : Option LidarErr) (s1 : DevState)
    (hwait : waitAcquisitionReady m W fuel s = some (he, s1)) :
    (∀ f, he = some (LidarErr.health f) →
      ∀ w, m.resp s1.ops = (w, none) →
        ReadDistance m W fuel s =
          some ((w % 65536, some (LidarErr.health f)),
            { s1 with
              ops := s1.ops + 1
              log := s1.log ++ [BusOp.readWord 0x8f] })) ∧
    (isFatalErr he = true →
      ReadDistance m W fuel s = some ((0, he), s1)) := by
  constructor
  · intro f hf w hw
    subst hf
    have hw2 : (m.resp s1.ops).2 = none := by rw [hw]
    have hw1 : (m.resp s1.ops).1 = w := by rw [hw]
    simp [ReadDistance, hwait, isFatalErr, readWordFromReg, hw2, hw1]
  · intro hfatal
    simp [ReadDistance, hwait, hfatal]

/-- Witness for C4: a status with Healthy clear (0b00010000) lets the
distance read proceed and return the value 1234 together with the health
error, whereas a status with ErrorDetected set (0b01000000) yields the zero
value and the measurement error with no distance-register read logged. -/
theorem ReadDistance_soft_vs_fatal_witness :
    ReadDistance (seqModel [(16, none), (0, none), (1234, none)]) 5 2 initState =
      some ((1234, some (LidarErr.health 0)),
        ⟨3, 1, 1, [BusOp.readByte 0x01, BusOp.readByte 0x48, BusOp.readWord 0x8f]⟩) ∧
    ReadDistance (constModel 96 none) 5 2 initState =
      some ((0, some LidarErr.measurement), ⟨1, 1, 1, [BusOp.readByte 0x01]⟩) := by
  constructor
  · have h := (ReadDistance_soft_vs_fatal (seqModel [(16, none), (0, none),
      (1234, none)]) 5 2 initState (some (LidarErr.health 0))
      ⟨2, 1, 1, [BusOp.readByte 0x01, BusOp.readByte 0x48]⟩ (by decide)).1 0 rfl
      1234 rfl
    exact h.trans (by decide)
  · exact (ReadDistance_soft_vs_fatal (constModel 96 none) 5 2 initState
      (some LidarErr.measurement) ⟨1, 1, 1, [BusOp.readByte 0x01]⟩ (by decide)).2
      (by decide)

/-- One unfolding step of the polling loop, for controlled rewriting. -/
theorem waitReadyStatusLoop_succ (m : BusModel) (W startedAt b fuel : Nat)
    (s : DevState) :
    waitReadyStatusLoop m W startedAt b (fuel + 1) s =
      if (m.resp s.ops).2 = none ∧ (m.resp s.ops).1 % 256 &&& Busy = 0 then
        some (((m.resp s.ops).1 % 256, none),
          ⟨s.ops + 1, s.ticks, s.time, s.log ++ [BusOp.readByte 0x01]⟩)
      else if W ≤ s.time + m.tick s.ticks - startedAt then
        some (((m.resp s.ops).1 % 256, wrapLoopErr (m.resp s.ops).2),
          ⟨s.ops + 1, s.ticks + 1, s.time + m.tick s.ticks,
            s.log ++ [BusOp.readByte 0x01]⟩)
      else
        waitReadyStatusLoop m W startedAt (b * 2) fuel
          ⟨s.ops + 1, s.ticks + 1, s.time + m.tick s.ticks,
            s.log ++ [BusOp.readByte 0x01]⟩ := rfl

/-- The wall clock never runs backwards during the polling loop. -/
theorem waitReadyStatusLoop_time_mono (m : BusModel) (W startedAt : Nat) :
    ∀ fuel backoff s r s',
      waitReadyStatusLoop m W startedAt backoff fuel s = some (r, s') →
      s.time ≤ s'.time := by
  intro fuel
  induction fuel with
  | zero =>
    intro b s r s' h
    simp [waitReadyStatusLoop] at h
  | succ n ih =>
    intro b s r s' h
    simp only [waitReadyStatusLoop, GetStatus, readByteFromReg, clockNow] at h
    split at h
    · obtain ⟨h1, h2⟩ := Prod.ext_iff.1 (Option.some.inj h)
      subst h2
      exact Nat.le_refl _
    · split at h
      · obtain ⟨h1, h2⟩ := Prod.ext_iff.1 (Option.some.inj h)
        subst h2
        exact Nat.le_add_right _ _
      · exact le_trans (Nat.le_add_right _ _) (ih _ _ _ _ h)

/-- When every clock query advances time, the polling loop terminates as
soon as enough fuel is supplied to reach the timeout boundary. -/
theorem waitReadyStatusLoop_isSome (m : BusModel) (W startedAt : Nat)
    (htick : ∀ k, 1 ≤ m.tick k) :
    ∀ fuel backoff s, startedAt + W < s.time + fuel + 1 →
      (waitReadyStatusLoop m W startedAt backoff (fuel + 1) s).isSome := by
  intro fuel
  induction fuel with
  | zero =>
    intro b s hf
    simp only [waitReadyStatusLoop, GetStatus, readByteFromReg, clockNow]
    split
    · rfl
    · split
      · rfl
      · exfalso
        have := htick s.ticks
        omega
  | succ n ih =>
    intro b s hf
    rw [waitReadyStatusLoop_succ]
    split
    · rfl
    · split
      · rfl
      · refine ih (b * 2) _ ?_
        show startedAt + W < s.time + m.tick s.ticks + n + 1
        have := htick s.ticks
        omega

/-- `waitReadyStatus` with fuel at least `W + 1` returns a result, and its
initial `time.Now` query makes the clock strictly advance. -/
theorem waitReadyStatus_some (m : BusModel) (W fuel : Nat) (s : DevState)
    (htick : ∀ k, 1 ≤ m.tick k) (hfuel : W + 1 ≤ fuel) :
    ∃ r s', waitReadyStatus m W fuel s = some (r, s') ∧ s.time + 1 ≤ s'.time := by
  obtain ⟨f, rfl⟩ : ∃ f, fuel = f + 1 := ⟨fuel - 1, by omega⟩
  have hS := waitReadyStatusLoop_isSome m W (s.time + m.tick s.ticks) htick f 1
    { s with ticks := s.ticks + 1, time := s.time + m.tick s.ticks }
    (by simp; omega)
  obtain ⟨p, hp⟩ := Option.isSome_iff_exists.1 hS
  obtain ⟨r, s'⟩ := p
  have hmono := waitReadyStatusLoop_time_mono m W (s.time + m.tick s.ticks)
    (f + 1) 1 _ r s' hp
  refine ⟨r, s', ?_, ?_⟩
  · simpa [waitReadyStatus, clockNow] using hp
  · have := htick s.ticks
    simp at hmono
    omega

/-- `waitAcquisitionReady` with fuel at least `W + 1` returns a result, and
the clock strictly advances. -/
theorem waitAcquisitionReady_some (m : BusModel) (W fuel : Nat) (s : DevState)
    (htick : ∀ k, 1 ≤ m.tick k) (hfuel : W + 1 ≤ fuel) :
    ∃ e s', waitAcquisitionReady m W fuel s = some (e, s') ∧
      s.time + 1 ≤ s'.time := by
  obtain ⟨⟨status, e0⟩, s1, hw, ht⟩ := waitReadyStatus_some m W fuel s htick hfuel
  unfold waitAcquisitionReady
  rw [hw]
  cases e0 with
  | some err => exact ⟨some err, s1, rfl, ht⟩
  | none =>
    refine ⟨_, _, rfl, ?_⟩
    by_cases hh : status &&& Healthy = 0 <;>
      simp [readByteFromReg, hh] <;> omega

/-- `Acquire` with fuel at least `W + 1` returns a result, and the clock
strictly advances. -/
theorem Acquire_some (m : BusModel) (W fuel : Nat) (b : Bool) (s : DevState)
    (htick : ∀ k, 1 ≤ m.tick k) (hfuel : W + 1 ≤ fuel) :
    ∃ e s', Acquire m W fuel b s = some (e, s') ∧ s.time + 1 ≤ s'.time := by
  obtain ⟨⟨status, e0⟩, s1, hw, ht⟩ := waitReadyStatus_some m W fuel s htick hfuel
  simp only [Acquire, waitReadyForCommand, hw, Option.map_some]
  cases e0 with
  | some err => exact ⟨some err, s1, rfl, ht⟩
  | none =>
    refine ⟨_, _, rfl, ?_⟩
    simpa [writeByteToReg] using ht

/-- `ReadDistance` with fuel at least `W + 1` returns a result, and the
clock strictly advances. -/
theorem ReadDistance_some (m : BusModel) (W fuel : Nat) (s : DevState)
    (htick : ∀ k, 1 ≤ m.tick k) (hfuel : W + 1 ≤ fuel) :
    ∃ v e s', ReadDistance m W fuel s = some ((v, e), s') ∧
      s.time + 1 ≤ s'.time := by
  obtain ⟨e0, s1, hw, ht⟩ := waitAcquisitionReady_some m W fuel s htick hfuel
  simp only [ReadDistance, hw]
  by_cases hf : isFatalErr e0 = true
  · rw [if_pos hf]
    exact ⟨0, e0, s1, rfl, ht⟩
  · rw [if_neg hf]
    cases hr : (m.resp s1.ops).2 with
    | some c =>
      refine ⟨0, some (LidarErr.transport c),
        { s1 with ops := s1.ops + 1, log := s1.log ++ [BusOp.readWord 0x8f] },
        ?_, ?_⟩
      · simp [readWordFromReg, hr]
      · exact ht
    | none =>
      refine ⟨(m.resp s1.ops).1 % 65536, e0,
        { s1 with ops := s1.ops + 1, log := s1.log ++ [BusOp.readWord 0x8f] },
        ?_, ?_⟩
      · simp [readWordFromReg, hr]
      · exact ht

/-- One unfolding step of the `GetDistance` retry loop. -/
theorem GetDistanceLoop_succ (m : BusModel) (W fi startedAt fuel value : Nat)
    (s : DevState) :
    GetDistanceLoop m W fi startedAt (fuel + 1) value s =
      match Acquire m W fi true s with
      | none => none
      | some (some e, s1) =>
        if W ≤ s1.time + m.tick s1.ticks - startedAt then
          some ((value, some e), (clockNow m s1).2)
        else GetDistanceLoop m W fi startedAt fuel value (clockNow m s1).2
      | some (none, s1) =>
        match ReadDistance m W fi s1 with
        | none => none
        | some ((v, none), s2) => some ((v, none), s2)
        | some ((v, some e), s2) =>
          if W ≤ s2.time + m.tick s2.ticks - startedAt then
            some ((v, some e), (clockNow m s2).2)
          else GetDistanceLoop m W fi startedAt fuel v (clockNow m s2).2 := rfl

/-- When every clock query advances time and the inner waits are given
enough fuel, the `GetDistance` retry loop terminates once its own fuel
reaches the timeout boundary. -/
theorem GetDistanceLoop_isSome (m : BusModel) (W fi startedAt : Nat)
    (htick : ∀ k, 1 ≤ m.tick k) (hfi : W + 1 ≤ fi) :
    ∀ fuel value s, startedAt + W < s.time + fuel + 1 →
      (GetDistanceLoop m W fi startedAt (fuel + 1) value s).isSome := by
  intro fuel
  induction fuel with
  | zero =>
    intro value s hf
    obtain ⟨e, s1, hA, ht1⟩ := Acquire_some m W fi true s htick hfi
    cases e with
    | some e =>
      rw [GetDistanceLoop_succ]
      simp only [hA]
      rw [if_pos (by have := htick s1.ticks; omega)]
      rfl
    | none =>
      obtain ⟨v, e2, s2, hR, ht2⟩ := ReadDistance_some m W fi s1 htick hfi
      cases e2 with
      | none =>
        rw [GetDistanceLoop_succ]
        simp only [hA, hR]
        rfl
      | some e2 =>
        rw [GetDistanceLoop_succ]
        simp only [hA, hR]
        rw [if_pos (by have := htick s2.ticks; omega)]
        rfl
  | succ n ih =>
    intro value s hf
    obtain ⟨e, s1, hA, ht1⟩ := Acquire_some m W fi true s htick hfi
    cases e with
    | some e =>
      rw [GetDistanceLoop_succ]
      simp only [hA]
      split
      · rfl
      · refine ih value _ ?_
        show startedAt + W < s1.time + m.tick s1.ticks + n + 1
        have := htick s1.ticks
        omega
    | none =>
      obtain ⟨v, e2, s2, hR, ht2⟩ := ReadDistance_some m W fi s1 htick hfi
      cases e2 with
      | none =>
        rw [GetDistanceLoop_succ]
        simp only [hA, hR]
        rfl
      | some e2 =>
        rw [GetDistanceLoop_succ]
        simp only [hA, hR]
        split
        · rfl
        · refine ih v _ ?_
          show startedAt + W < s2.time + m.tick s2.ticks + n + 1
          have := htick s2.ticks
          omega

/-- `Acquire` only ever appends to the operation log. -/
theorem Acquire_log (m : BusModel) (W fuel : Nat) (b : Bool) (s : DevState)
    (e : Option LidarErr) (s' : DevState)
    (h : Acquire m W fuel b s = some (e, s')) : ∃ t, s'.log = s.log ++ t := by
  unfold Acquire waitReadyForCommand at h
  cases hw : waitReadyStatus m W fuel s with
  | none => rw [hw] at h; exact absurd h (by simp)
  | some p =>
    obtain ⟨⟨status, e0⟩, s1⟩ := p
    obtain ⟨t0, ht0, _⟩ := waitReadyStatus_log m W fuel s (status, e0) s1 hw
    rw [hw] at h
    simp only [Option.map_some] at h
    cases e0 with
    | some err =>
      obtain ⟨h1, h2⟩ := Prod.ext_iff.1 (Option.some.inj h)
      subst h2
      exact ⟨t0, ht0⟩
    | none =>
      simp only [writeByteToReg] at h
      obtain ⟨h1, h2⟩ := Prod.ext_iff.1 (Option.some.inj h)
      subst h2
      exact ⟨t0 ++ [BusOp.writeByte 0x00 ((if b then 0x04 else 0x03) % 256)],
        by simp [ht0]⟩

/-- `ReadDistance` only ever appends to the operation log. -/
theorem ReadDistance_log (m : BusModel) (W fuel : Nat) (s : DevState)
    (r : Nat × Option LidarErr) (s' : DevState)
    (h : ReadDistance m W fuel s = some (r, s')) : ∃ t, s'.log = s.log ++ t := by
  cases hw : waitAcquisitionReady m W fuel s with
  | none => simp [ReadDistance, hw] at h
  | some p =>
    obtain ⟨e0, s1⟩ := p
    obtain ⟨t0, ht0, _⟩ := waitAcquisitionReady_log m W fuel s e0 s1 hw
    simp only [ReadDistance, hw] at h
    split at h
    · obtain ⟨h1, h2⟩ := Prod.ext_iff.1 (Option.some.inj h)
      subst h2
      exact ⟨t0, ht0⟩
    · cases hr : (m.resp s1.ops).2 with
      | some c =>
        simp only [readWordFromReg, hr] at h
        obtain ⟨h1, h2⟩ := Prod.ext_iff.1 (Option.some.inj h)
        subst h2
        exact ⟨t0 ++ [BusOp.readWord 0x8f], by simp [ht0]⟩
      | none =>
        simp only [readWordFromReg, hr] at h
        obtain ⟨h1, h2⟩ := Prod.ext_iff.1 (Option.some.inj h)
        subst h2
        exact ⟨t0 ++ [BusOp.readWord 0x8f], by simp [ht0]⟩

/-- The `GetDistance` retry loop only ever appends to the operation log. -/
theorem GetDistanceLoop_log (m : BusModel) (W fi startedAt : Nat) :
    ∀ fuel value s r s',
      GetDistanceLoop m W fi startedAt fuel value s = some (r, s') →
      ∃ t, s'.log = s.log ++ t := by
  intro fuel
  induction fuel with
  | zero =>
    intro value s r s' h
    simp [GetDistanceLoop] at h
  | succ n ih =>
    intro value s r s' h
    rw [GetDistanceLoop_succ] at h
    cases hA : Acquire m W fi true s with
    | none => simp [hA] at h
    | some p =>
      obtain ⟨e1, s1⟩ := p
      obtain ⟨tA, htA⟩ := Acquire_log m W fi true s e1 s1 hA
      cases e1 with
      | some e =>
        simp only [hA] at h
        split at h
        · obtain ⟨h1, h2⟩ := Prod.ext_iff.1 (Option.some.inj h)
          subst h2
          exact ⟨tA, by simpa [clockNow] using htA⟩
        · obtain ⟨t, ht⟩ := ih _ _ _ _ h
          exact ⟨tA ++ t, by simp only [clockNow] at ht; simp [ht, htA]⟩
      | none =>
        cases hR : ReadDistance m W fi s1 with
        | none => simp [hA, hR] at h
        | some q =>
          obtain ⟨⟨v, e2⟩, s2⟩ := q
          obtain ⟨tR, htR⟩ := ReadDistance_log m W fi s1 (v, e2) s2 hR
          cases e2 with
          | none =>
            simp only [hA, hR] at h
            obtain ⟨h1, h2⟩ := Prod.ext_iff.1 (Option.some.inj h)
            subst h2
            exact ⟨tA ++ tR, by simp [htR, htA]⟩
          | some e =>
            simp only [hA, hR] at h
            split at h
            · obtain ⟨h1, h2⟩ := Prod.ext_iff.1 (Option.some.inj h)
              subst h2
              exact ⟨tA ++ tR, by simp [clockNow, htR, htA]⟩
            · obtain ⟨t, ht⟩ := ih _ _ _ _ h
              refine ⟨tA ++ tR ++ t, ?_⟩
              simp only [clockNow] at ht
              simp [ht, htR, htA]

/-- Claim C9: `GetDistance` terminates within `WaitTimeout` even when every
underlying `Acquire`/`ReadDistance` call fails.  Under the real-time
assumption that every clock query advances the clock by at least one unit,
`GetDistance` with fuel `W + 2` for its own loop and for each inner wait
always returns a result, and its first bus operation is the write setting
the acquisition count to 0.  Moreover (2) an iteration whose `Acquire` and
`ReadDistance` both succeed makes the loop return that distance with no
error; (3) an iteration whose `Acquire` fails once the elapsed time has
reached `WaitTimeout` makes the loop stop and return that last error (and
the previous value); and (4) likewise for an iteration whose `ReadDistance`
fails at the boundary, returning its value and error. -/
theorem GetDistance_terminates :
    (∀ (m : BusModel) (W : Nat) (s : DevState), (∀ k, 1 ≤ m.tick k) →
      ∃ v e s', GetDistance m W (W + 2) (W + 2) s = some ((v, e), s') ∧
        ∃ rest, s'.log = s.log ++ BusOp.writeByte 0x11 0 :: rest) ∧
    (∀ (m : BusModel) (W fi startedAt fuel value v : Nat) (s s1 s2 : DevState),
      Acquire m W fi true s = some (none, s1) →
      ReadDistance m W fi s1 = some ((v, none), s2) →
      GetDistanceLoop m W fi startedAt (fuel + 1) value s = some ((v, none), s2)) ∧
    (∀ (m : BusModel) (W fi startedAt fuel value : Nat) (s s1 : DevState)
      (e : LidarErr),
      Acquire m W fi true s = some (some e, s1) →
      W ≤ s1.time + m.tick s1.ticks - startedAt →
      GetDistanceLoop m W fi startedAt (fuel + 1) value s =
        some ((value, some e), (clockNow m s1).2)) ∧
    (∀ (m : BusModel) (W fi startedAt fuel value v : Nat) (s s1 s2 : DevState)
      (e : LidarErr),
      Acquire m W fi true s = some (none, s1) →
      ReadDistance m W fi s1 = some ((v, some e), s2) →
      W ≤ s2.time + m.tick s2.ticks - startedAt →
      GetDistanceLoop m W fi startedAt (fuel + 1) value s =
        some ((v, some e), (clockNow m s2).2)) := by
  refine ⟨?_, ?_, ?_, ?_⟩
  · intro m W s htick
    simp only [GetDistance, clockNow, setAcquisitionCount, writeByteToReg]
    cases hw : (m.resp s.ops).2 with
    | some e =>
      refine ⟨0, some (LidarErr.transport e),
        { s with
          ops := s.ops + 1
          ticks := s.ticks + 1
          time := s.time + m.tick s.ticks
          log := s.log ++ [BusOp.writeByte 0x11 (0 % 256)] }, ?_, [], ?_⟩
      · simp only [hw]
      · simp
    | none =>
      have hS := GetDistanceLoop_isSome m W (W + 2) (s.time + m.tick s.ticks)
        htick (by omega) (W + 1) 0
        { s with
          ops := s.ops + 1
          ticks := s.ticks + 1
          time := s.time + m.tick s.ticks
          log := s.log ++ [BusOp.writeByte 0x11 (0 % 256)] }
        (by simp; omega)
      obtain ⟨p, hp⟩ := Option.isSome_iff_exists.1 hS
      obtain ⟨⟨v, e⟩, s'⟩ := p
      obtain ⟨t, ht⟩ := GetDistanceLoop_log m W (W + 2) _ _ _ _ _ _ hp
      refine ⟨v, e, s', ?_, t, ?_⟩
      · simp only [hw]
        exact hp
      · simp only [ht]
        simp
  · intro m W fi startedAt fuel value v s s1 s2 hA hR
    rw [GetDistanceLoop_succ]
    simp only [hA, hR]
  · intro m W fi startedAt fuel value s s1 e hA hW
    rw [GetDistanceLoop_succ]
    simp only [hA]
    rw [if_pos hW]
  · intro m W fi startedAt fuel value v s s1 s2 e hA hR hW
    rw [GetDistanceLoop_succ]
    simp only [hA, hR]
    rw [if_pos hW]

/-- Witness for C9: (1) against a bus on which every operation fails with
transport error 7, `GetDistance` with timeout 1 terminates, its first logged
operation being the count write; concretely it returns (0, transport 7);
(2) a fully successful iteration returns its distance 1234 with no error;
(3) an `Acquire` failure at the boundary ends the loop with the last error
and value; (4) a `ReadDistance` failure at the boundary ends the loop with
its value and error. -/
theorem GetDistance_terminates_witness :
    (∃ v e s', GetDistance (constModel 0 (some 7)) 1 (1 + 2) (1 + 2) initState =
        some ((v, e), s') ∧
      ∃ rest, s'.log = initState.log ++ BusOp.writeByte 0x11 0 :: rest) ∧
    GetDistance (constModel 0 (some 7)) 1 3 3 initState =
      some ((0, some (LidarErr.transport 7)), ⟨1, 1, 1, [BusOp.writeByte 0x11 0]⟩) ∧
    GetDistanceLoop (seqModel [(32, none), (0, none), (32, none), (1234, none)])
        5 2 0 1 0 initState =
      some ((1234, none), ⟨4, 2, 2, [BusOp.readByte 0x01, BusOp.writeByte 0x00 4,
        BusOp.readByte 0x01, BusOp.readWord 0x8f]⟩) ∧
    GetDistanceLoop (constModel 0 (some 7)) 0 2 0 1 99 initState =
      some ((99, some (LidarErr.transport 7)), ⟨1, 3, 3, [BusOp.readByte 0x01]⟩) ∧
    GetDistanceLoop (seqModel [(32, none), (0, none), (0, some 9)]) 0 2 0 1 55
        initState =
      some ((0, some (LidarErr.transport 9)), ⟨3, 4, 4, [BusOp.readByte 0x01,
        BusOp.writeByte 0x00 4, BusOp.readByte 0x01]⟩) := by
  refine ⟨?_, by decide, ?_, ?_, ?_⟩
  · exact GetDistance_terminates.1 (constModel 0 (some 7)) 1 initState
      (fun _ => Nat.le_refl 1)
  · exact (GetDistance_terminates.2.1 (seqModel [(32, none), (0, none), (32, none),
      (1234, none)]) 5 2 0 0 0 1234 initState
      ⟨2, 1, 1, [BusOp.readByte 0x01, BusOp.writeByte 0x00 4]⟩
      ⟨4, 2, 2, [BusOp.readByte 0x01, BusOp.writeByte 0x00 4, BusOp.readByte 0x01,
        BusOp.readWord 0x8f]⟩ (by decide) (by decide))
  · exact (GetDistance_terminates.2.2.1 (constModel 0 (some 7)) 0 2 0 0 99
      initState ⟨1, 2, 2, [BusOp.readByte 0x01]⟩ (LidarErr.transport 7)
      (by decide) (by decide)).trans (by decide)
  · exact (GetDistance_terminates.2.2.2 (seqModel [(32, none), (0, none),
      (0, some 9)]) 0 2 0 0 55 0 initState
      ⟨2, 1, 1, [BusOp.readByte 0x01, BusOp.writeByte 0x00 4]⟩
      ⟨3, 3, 3, [BusOp.readByte 0x01, BusOp.writeByte 0x00 4, BusOp.readByte 0x01]⟩
      (LidarErr.transport 9) (by decide) (by decide) (by decide)).trans (by decide)

end LidarV2
